import Mathlib

/-!
Verification of the gender-transformer service (`src/app.py`) against its
natural-language specification.

The Python source is shallowly embedded below.  Strings are modelled as
`List Char`; the regular-expression substitutions of `transform_text`
(patterns of the shape `\bword\b`, optionally with the lookahead
`(?=\s+[a-zA-Z])`, under `re.IGNORECASE`) are embedded as an executable
left-to-right scanner.  The PDF rewriting loop of `transform_pdf` is
embedded as a function from the per-page list of found replacements to the
list of document-engine operations the code issues, in order.
-/

set_option maxRecDepth 100000
set_option maxHeartbeats 10000000

/-- Strings are modelled as lists of characters. -/
abbrev LC := List Char

/-- Convert a Lean string literal to the `List Char` model. -/
def lc (s : String) : LC := s.data

/-- Python whitespace (`str.strip`, regex `\s`), restricted to the ASCII
range that the inputs of the program use. -/
def pyIsSpace (c : Char) : Bool :=
  c == ' ' || c == '\t' || c == '\n' || c == '\r' || c == '\x0b' || c == '\x0c'

/-- A regex word character (`\w`, hence also the `\b` boundary class):
letters, digits, or underscore (ASCII range). -/
def isWordChar (c : Char) : Bool :=
  c.isAlpha || c.isDigit || c == '_'

/-- Python `str.isupper()` on the ASCII domain: at least one cased (here:
alphabetic) character and no lower-case character among the cased ones. -/
def pyIsUpper (s : LC) : Bool :=
  s.any (fun c => c.isAlpha) && s.all (fun c => !c.isAlpha || c.isUpper)

/-- Python `str.capitalize()`: first character upper-cased, rest lower-cased. -/
def pyCapitalize (s : LC) : LC :=
  match s with
  | [] => []
  | c :: cs => c.toUpper :: cs.map Char.toLower

/-- `preserve_case` from src/app.py lines 65-70. -/
def preserve_case (original replacement : LC) : LC :=
  if pyIsUpper original then replacement.map Char.toUpper
  else if (original.headD ' ').isUpper then pyCapitalize replacement
  else replacement.map Char.toLower

/-- `GENDER_PAIRS` from src/app.py lines 20-62, in source order. -/
def GENDER_PAIRS : List (LC × LC) := [
  (lc "he", lc "she"), (lc "him", lc "her"), (lc "himself", lc "herself"),
  (lc "man", lc "woman"), (lc "men", lc "women"), (lc "male", lc "female"), (lc "males", lc "females"),
  (lc "boy", lc "girl"), (lc "boys", lc "girls"),
  (lc "father", lc "mother"), (lc "fathers", lc "mothers"), (lc "dad", lc "mom"), (lc "daddy", lc "mommy"),
  (lc "son", lc "daughter"), (lc "sons", lc "daughters"),
  (lc "brother", lc "sister"), (lc "brothers", lc "sisters"),
  (lc "uncle", lc "aunt"), (lc "uncles", lc "aunts"),
  (lc "nephew", lc "niece"), (lc "nephews", lc "nieces"),
  (lc "husband", lc "wife"), (lc "husbands", lc "wives"),
  (lc "grandfather", lc "grandmother"), (lc "grandfathers", lc "grandmothers"),
  (lc "grandpa", lc "grandma"), (lc "grandson", lc "granddaughter"),
  (lc "stepfather", lc "stepmother"), (lc "stepson", lc "stepdaughter"),
  (lc "stepbrother", lc "stepsister"), (lc "godfather", lc "godmother"),
  (lc "godson", lc "goddaughter"),
  (lc "mr", lc "ms"), (lc "sir", lc "madam"),
  (lc "gentleman", lc "lady"), (lc "gentlemen", lc "ladies"),
  (lc "lord", lc "lady"), (lc "lords", lc "ladies"),
  (lc "king", lc "queen"), (lc "kings", lc "queens"),
  (lc "prince", lc "princess"), (lc "princes", lc "princesses"),
  (lc "duke", lc "duchess"), (lc "baron", lc "baroness"),
  (lc "count", lc "countess"), (lc "emperor", lc "empress"),
  (lc "actor", lc "actress"), (lc "waiter", lc "waitress"),
  (lc "steward", lc "stewardess"), (lc "host", lc "hostess"),
  (lc "hero", lc "heroine"), (lc "heroes", lc "heroines"),
  (lc "god", lc "goddess"), (lc "gods", lc "goddesses"),
  (lc "priest", lc "priestess"), (lc "monk", lc "nun"), (lc "monks", lc "nuns"),
  (lc "wizard", lc "witch"), (lc "wizards", lc "witches"),
  (lc "widower", lc "widow"), (lc "widowers", lc "widows"),
  (lc "bachelor", lc "bachelorette"), (lc "groom", lc "bride"),
  (lc "salesman", lc "saleswoman"), (lc "salesmen", lc "saleswomen"),
  (lc "businessman", lc "businesswoman"), (lc "businessmen", lc "businesswomen"),
  (lc "congressman", lc "congresswoman"), (lc "congressmen", lc "congresswomen"),
  (lc "policeman", lc "policewoman"), (lc "policemen", lc "policewomen"),
  (lc "fireman", lc "firewoman"), (lc "firemen", lc "firewomen"),
  (lc "spokesman", lc "spokeswoman"), (lc "spokesmen", lc "spokeswomen"),
  (lc "chairman", lc "chairwoman"), (lc "chairmen", lc "chairwomen"),
  (lc "boyfriend", lc "girlfriend"), (lc "boyfriends", lc "girlfriends"),
  (lc "manhood", lc "womanhood"), (lc "mankind", lc "womankind"),
  (lc "masculine", lc "feminine"), (lc "masculinity", lc "femininity"),
  (lc "lad", lc "lass"), (lc "lads", lc "lasses"),
  (lc "guy", lc "gal"), (lc "guys", lc "gals")]

/-- Lower-case every character (Python `str.lower()` on the ASCII domain). -/
def lcLower (s : LC) : LC := s.map Char.toLower

/-- One Python-dict insertion: an existing key keeps its position but its
value is overwritten; a new key is appended. -/
def dictInsert (d : List (LC × LC)) (k v : LC) : List (LC × LC) :=
  if d.any (fun p => p.1 == k) then
    d.map (fun p => if p.1 == k then (p.1, v) else p)
  else d ++ [(k, v)]

/-- `build_mappings` from src/app.py lines 73-77: a Python dict built by
inserting the pairs in table order (so for the reverse direction the
duplicated feminine keys keep their first position but take the value of
the last pair that mentions them). -/
def build_mappings (direction : String) : List (LC × LC) :=
  if direction == "m_to_f" then
    GENDER_PAIRS.foldl (fun d p => dictInsert d (lcLower p.1) (lcLower p.2)) []
  else
    GENDER_PAIRS.foldl (fun d p => dictInsert d (lcLower p.2) (lcLower p.1)) []

/-- Case-insensitive match of the (lower-case) pattern word `w` against a
prefix of `s`; returns the matched original characters and the rest. -/
def matchWord : LC → LC → Option (LC × LC)
  | [], s => some ([], s)
  | _ :: _, [] => none
  | w :: ws, c :: cs =>
    if c.toLower == w then
      match matchWord ws cs with
      | some (m, rest) => some (c :: m, rest)
      | none => none
    else none

/-- After at least one whitespace character has been consumed: keep
consuming whitespace; the first non-whitespace character must be an ASCII
letter (`[a-zA-Z]`). -/
def lookaheadTail : LC → Bool
  | [] => false
  | c :: cs => if pyIsSpace c then lookaheadTail cs else c.isAlpha

/-- The regex lookahead `(?=\s+[a-zA-Z])`: at least one whitespace
character followed by an ASCII letter. -/
def lookaheadOk : LC → Bool
  | [] => false
  | c :: cs => pyIsSpace c && lookaheadTail cs

/-- Core scanner for one `re.sub` pass with a whole-word pattern (leading
and trailing `\b`, optionally plus the lookahead), a `preserve_case`
replacement and the IGNORECASE flag.  `prevW` records whether the previous character
of the original text was a word character (for the leading `\b`); the fuel
is an upper bound on the remaining length (each step consumes at least one
character). -/
def subWordAux (w target : LC) (look : Bool) : Nat → Bool → LC → LC
  | 0, _, s => s
  | _ + 1, _, [] => []
  | fuel + 1, prevW, c :: cs =>
    let attempt : Option (LC × LC) :=
      if prevW then none
      else
        match matchWord w (c :: cs) with
        | some (m, rest) =>
          let afterOk := match rest with
            | [] => true
            | r :: _ => !(isWordChar r)
          let lookOk := if look then lookaheadOk rest else true
          if afterOk && lookOk then some (m, rest) else none
        | none => none
    match attempt with
    | some (m, rest) =>
      preserve_case m target ++ subWordAux w target look fuel (isWordChar (m.getLastD c)) rest
    | none => c :: subWordAux w target look fuel (isWordChar c) cs

/-- One whole-word case-insensitive substitution pass over `s`, replacing
every non-overlapping occurrence of `w` (at `\b` boundaries, and when
`look` is set additionally requiring the `(?=\s+[a-zA-Z])` lookahead) with
`preserve_case` applied to the matched text and `target`. -/
def subWord (w target : LC) (look : Bool) (s : LC) : LC :=
  subWordAux w target look s.length false s

/-- The possessive-pronoun passes run before the generic loop
(src/app.py lines 86-102). -/
def pronounPass (direction : String) (text : LC) : LC :=
  if direction == "m_to_f" then
    subWord (lc "his") (lc "hers") false (subWord (lc "his") (lc "her") true text)
  else
    subWord (lc "hers") (lc "his") false text

/-- The generic mapping loop of `transform_text` (src/app.py lines
104-126), including the special in-loop handling of the reverse-direction
source word after "she". -/
def applyMappings (direction : String) (mappings : List (LC × LC)) (t0 : LC) : LC :=
  mappings.foldl (fun text st =>
    if st.1 == lc "his" || st.1 == lc "hers" then text
    else if st.1 == lc "her" && direction == "f_to_m" then
      subWord (lc "her") (lc "him") false (subWord (lc "her") (lc "his") true text)
    else subWord st.1 st.2 false text) t0

/-- `transform_text` from src/app.py lines 80-128. -/
def transform_text (text : LC) (direction : String := "m_to_f") : LC :=
  if text.isEmpty || text.all pyIsSpace then text
  else applyMappings direction (build_mappings direction) (pronounPass direction text)

/-- Upper-case every character (Python `str.upper()` on the ASCII domain). -/
def lcUpper (s : LC) : LC := s.map Char.toUpper

/-- The value of `build_mappings "m_to_f"`, written out: the masculine
forms are pairwise distinct, so the dict lists the pairs in table order. -/
def mtofMap : List (LC × LC) := [
  (lc "he", lc "she"), (lc "him", lc "her"), (lc "himself", lc "herself"),
  (lc "man", lc "woman"), (lc "men", lc "women"), (lc "male", lc "female"),
  (lc "males", lc "females"), (lc "boy", lc "girl"), (lc "boys", lc "girls"),
  (lc "father", lc "mother"), (lc "fathers", lc "mothers"), (lc "dad", lc "mom"),
  (lc "daddy", lc "mommy"), (lc "son", lc "daughter"), (lc "sons", lc "daughters"),
  (lc "brother", lc "sister"), (lc "brothers", lc "sisters"), (lc "uncle", lc "aunt"),
  (lc "uncles", lc "aunts"), (lc "nephew", lc "niece"), (lc "nephews", lc "nieces"),
  (lc "husband", lc "wife"), (lc "husbands", lc "wives"), (lc "grandfather", lc "grandmother"),
  (lc "grandfathers", lc "grandmothers"), (lc "grandpa", lc "grandma"), (lc "grandson", lc "granddaughter"),
  (lc "stepfather", lc "stepmother"), (lc "stepson", lc "stepdaughter"), (lc "stepbrother", lc "stepsister"),
  (lc "godfather", lc "godmother"), (lc "godson", lc "goddaughter"), (lc "mr", lc "ms"),
  (lc "sir", lc "madam"), (lc "gentleman", lc "lady"), (lc "gentlemen", lc "ladies"),
  (lc "lord", lc "lady"), (lc "lords", lc "ladies"), (lc "king", lc "queen"),
  (lc "kings", lc "queens"), (lc "prince", lc "princess"), (lc "princes", lc "princesses"),
  (lc "duke", lc "duchess"), (lc "baron", lc "baroness"), (lc "count", lc "countess"),
  (lc "emperor", lc "empress"), (lc "actor", lc "actress"), (lc "waiter", lc "waitress"),
  (lc "steward", lc "stewardess"), (lc "host", lc "hostess"), (lc "hero", lc "heroine"),
  (lc "heroes", lc "heroines"), (lc "god", lc "goddess"), (lc "gods", lc "goddesses"),
  (lc "priest", lc "priestess"), (lc "monk", lc "nun"), (lc "monks", lc "nuns"),
  (lc "wizard", lc "witch"), (lc "wizards", lc "witches"), (lc "widower", lc "widow"),
  (lc "widowers", lc "widows"), (lc "bachelor", lc "bachelorette"), (lc "groom", lc "bride"),
  (lc "salesman", lc "saleswoman"), (lc "salesmen", lc "saleswomen"), (lc "businessman", lc "businesswoman"),
  (lc "businessmen", lc "businesswomen"), (lc "congressman", lc "congresswoman"), (lc "congressmen", lc "congresswomen"),
  (lc "policeman", lc "policewoman"), (lc "policemen", lc "policewomen"), (lc "fireman", lc "firewoman"),
  (lc "firemen", lc "firewomen"), (lc "spokesman", lc "spokeswoman"), (lc "spokesmen", lc "spokeswomen"),
  (lc "chairman", lc "chairwoman"), (lc "chairmen", lc "chairwomen"), (lc "boyfriend", lc "girlfriend"),
  (lc "boyfriends", lc "girlfriends"), (lc "manhood", lc "womanhood"), (lc "mankind", lc "womankind"),
  (lc "masculine", lc "feminine"), (lc "masculinity", lc "femininity"), (lc "lad", lc "lass"),
  (lc "lads", lc "lasses"), (lc "guy", lc "gal"), (lc "guys", lc "gals")]

/-- The value of `build_mappings "f_to_m"`, written out.  The feminine
forms "lady" and "ladies" occur twice in the table, so the dict keeps
their first position (that of the gentleman/gentlemen pairs) but the
value of the last insertion: "lady" maps to "lord", "ladies" to "lords". -/
def ftomMap : List (LC × LC) := [
  (lc "she", lc "he"), (lc "her", lc "him"), (lc "herself", lc "himself"),
  (lc "woman", lc "man"), (lc "women", lc "men"), (lc "female", lc "male"),
  (lc "females", lc "males"), (lc "girl", lc "boy"), (lc "girls", lc "boys"),
  (lc "mother", lc "father"), (lc "mothers", lc "fathers"), (lc "mom", lc "dad"),
  (lc "mommy", lc "daddy"), (lc "daughter", lc "son"), (lc "daughters", lc "sons"),
  (lc "sister", lc "brother"), (lc "sisters", lc "brothers"), (lc "aunt", lc "uncle"),
  (lc "aunts", lc "uncles"), (lc "niece", lc "nephew"), (lc "nieces", lc "nephews"),
  (lc "wife", lc "husband"), (lc "wives", lc "husbands"), (lc "grandmother", lc "grandfather"),
  (lc "grandmothers", lc "grandfathers"), (lc "grandma", lc "grandpa"), (lc "granddaughter", lc "grandson"),
  (lc "stepmother", lc "stepfather"), (lc "stepdaughter", lc "stepson"), (lc "stepsister", lc "stepbrother"),
  (lc "godmother", lc "godfather"), (lc "goddaughter", lc "godson"), (lc "ms", lc "mr"),
  (lc "madam", lc "sir"), (lc "lady", lc "lord"), (lc "ladies", lc "lords"),
  (lc "queen", lc "king"), (lc "queens", lc "kings"), (lc "princess", lc "prince"),
  (lc "princesses", lc "princes"), (lc "duchess", lc "duke"), (lc "baroness", lc "baron"),
  (lc "countess", lc "count"), (lc "empress", lc "emperor"), (lc "actress", lc "actor"),
  (lc "waitress", lc "waiter"), (lc "stewardess", lc "steward"), (lc "hostess", lc "host"),
  (lc "heroine", lc "hero"), (lc "heroines", lc "heroes"), (lc "goddess", lc "god"),
  (lc "goddesses", lc "gods"), (lc "priestess", lc "priest"), (lc "nun", lc "monk"),
  (lc "nuns", lc "monks"), (lc "witch", lc "wizard"), (lc "witches", lc "wizards"),
  (lc "widow", lc "widower"), (lc "widows", lc "widowers"), (lc "bachelorette", lc "bachelor"),
  (lc "bride", lc "groom"), (lc "saleswoman", lc "salesman"), (lc "saleswomen", lc "salesmen"),
  (lc "businesswoman", lc "businessman"), (lc "businesswomen", lc "businessmen"), (lc "congresswoman", lc "congressman"),
  (lc "congresswomen", lc "congressmen"), (lc "policewoman", lc "policeman"), (lc "policewomen", lc "policemen"),
  (lc "firewoman", lc "fireman"), (lc "firewomen", lc "firemen"), (lc "spokeswoman", lc "spokesman"),
  (lc "spokeswomen", lc "spokesmen"), (lc "chairwoman", lc "chairman"), (lc "chairwomen", lc "chairmen"),
  (lc "girlfriend", lc "boyfriend"), (lc "girlfriends", lc "boyfriends"), (lc "womanhood", lc "manhood"),
  (lc "womankind", lc "mankind"), (lc "feminine", lc "masculine"), (lc "femininity", lc "masculinity"),
  (lc "lass", lc "lad"), (lc "lasses", lc "lads"), (lc "gal", lc "guy"),
  (lc "gals", lc "guys")]

/-- The forward dict is the table in order. -/
theorem build_mappings_mtof : build_mappings "m_to_f" = mtofMap := by decide

/-- The reverse dict: 85 entries, with "lady" and "ladies" resolved to the
values of the last pairs that mention them ("lord"/"lords"). -/
theorem build_mappings_ftom : build_mappings "f_to_m" = ftomMap := by decide

/-- The round-trip behaviour the spec asserts for one WordPair, checked
for the word as a standalone token in its lower-case, Capitalized and
UPPER-CASE spellings. -/
def pairRoundTrips (p : LC × LC) : Bool :=
  (transform_text p.1 "m_to_f" == p.2) && (transform_text p.2 "f_to_m" == p.1) &&
  (transform_text (pyCapitalize p.1) "m_to_f" == pyCapitalize p.2) &&
  (transform_text (pyCapitalize p.2) "f_to_m" == pyCapitalize p.1) &&
  (transform_text (lcUpper p.1) "m_to_f" == lcUpper p.2) &&
  (transform_text (lcUpper p.2) "f_to_m" == lcUpper p.1)

/-- The two pairs whose feminine form is shared with a later pair in the
table. -/
def isLadyPair (p : LC × LC) : Bool :=
  p == (lc "gentleman", lc "lady") || p == (lc "gentlemen", lc "ladies")

/-- One WordPair satisfies the C2 check when it is one of the two
duplicated-feminine pairs or its round trip holds in all three casings. -/
def c2check (p : LC × LC) : Bool := isLadyPair p || pairRoundTrips p

/-- Rows 1-10 of the WordPair table. -/
def c2rows1 : List (LC × LC) := [
  (lc "he", lc "she"), (lc "him", lc "her"), (lc "himself", lc "herself"),
  (lc "man", lc "woman"), (lc "men", lc "women"), (lc "male", lc "female"),
  (lc "males", lc "females"), (lc "boy", lc "girl"), (lc "boys", lc "girls"),
  (lc "father", lc "mother")]

/-- Rows 11-20 of the WordPair table. -/
def c2rows2 : List (LC × LC) := [
  (lc "fathers", lc "mothers"), (lc "dad", lc "mom"), (lc "daddy", lc "mommy"),
  (lc "son", lc "daughter"), (lc "sons", lc "daughters"), (lc "brother", lc "sister"),
  (lc "brothers", lc "sisters"), (lc "uncle", lc "aunt"), (lc "uncles", lc "aunts"),
  (lc "nephew", lc "niece")]

/-- Rows 21-30 of the WordPair table. -/
def c2rows3 : List (LC × LC) := [
  (lc "nephews", lc "nieces"), (lc "husband", lc "wife"), (lc "husbands", lc "wives"),
  (lc "grandfather", lc "grandmother"), (lc "grandfathers", lc "grandmothers"), (lc "grandpa", lc "grandma"),
  (lc "grandson", lc "granddaughter"), (lc "stepfather", lc "stepmother"), (lc "stepson", lc "stepdaughter"),
  (lc "stepbrother", lc "stepsister")]

/-- Rows 31-40 of the WordPair table. -/
def c2rows4 : List (LC × LC) := [
  (lc "godfather", lc "godmother"), (lc "godson", lc "goddaughter"), (lc "mr", lc "ms"),
  (lc "sir", lc "madam"), (lc "gentleman", lc "lady"), (lc "gentlemen", lc "ladies"),
  (lc "lord", lc "lady"), (lc "lords", lc "ladies"), (lc "king", lc "queen"),
  (lc "kings", lc "queens")]

/-- Rows 41-50 of the WordPair table. -/
def c2rows5 : List (LC × LC) := [
  (lc "prince", lc "princess"), (lc "princes", lc "princesses"), (lc "duke", lc "duchess"),
  (lc "baron", lc "baroness"), (lc "count", lc "countess"), (lc "emperor", lc "empress"),
  (lc "actor", lc "actress"), (lc "waiter", lc "waitress"), (lc "steward", lc "stewardess"),
  (lc "host", lc "hostess")]

/-- Rows 51-60 of the WordPair table. -/
def c2rows6 : List (LC × LC) := [
  (lc "hero", lc "heroine"), (lc "heroes", lc "heroines"), (lc "god", lc "goddess"),
  (lc "gods", lc "goddesses"), (lc "priest", lc "priestess"), (lc "monk", lc "nun"),
  (lc "monks", lc "nuns"), (lc "wizard", lc "witch"), (lc "wizards", lc "witches"),
  (lc "widower", lc "widow")]

/-- Rows 61-70 of the WordPair table. -/
def c2rows7 : List (LC × LC) := [
  (lc "widowers", lc "widows"), (lc "bachelor", lc "bachelorette"), (lc "groom", lc "bride"),
  (lc "salesman", lc "saleswoman"), (lc "salesmen", lc "saleswomen"), (lc "businessman", lc "businesswoman"),
  (lc "businessmen", lc "businesswomen"), (lc "congressman", lc "congresswoman"), (lc "congressmen", lc "congresswomen"),
  (lc "policeman", lc "policewoman")]

/-- Rows 71-80 of the WordPair table. -/
def c2rows8 : List (LC × LC) := [
  (lc "policemen", lc "policewomen"), (lc "fireman", lc "firewoman"), (lc "firemen", lc "firewomen"),
  (lc "spokesman", lc "spokeswoman"), (lc "spokesmen", lc "spokeswomen"), (lc "chairman", lc "chairwoman"),
  (lc "chairmen", lc "chairwomen"), (lc "boyfriend", lc "girlfriend"), (lc "boyfriends", lc "girlfriends"),
  (lc "manhood", lc "womanhood")]

/-- Rows 81-87 of the WordPair table. -/
def c2rows9 : List (LC × LC) := [
  (lc "mankind", lc "womankind"), (lc "masculine", lc "feminine"), (lc "masculinity", lc "femininity"),
  (lc "lad", lc "lass"), (lc "lads", lc "lasses"), (lc "guy", lc "gal"),
  (lc "guys", lc "gals")]

/-- Round-trip check for rows 1-10 of the table. -/
theorem c2rows1_ok : (c2rows1.all fun p => c2check p) = true := by
  simp only [c2check, isLadyPair, pairRoundTrips, transform_text,
    build_mappings_mtof, build_mappings_ftom]
  decide

/-- Round-trip check for rows 11-20 of the table. -/
theorem c2rows2_ok : (c2rows2.all fun p => c2check p) = true := by
  simp only [c2check, isLadyPair, pairRoundTrips, transform_text,
    build_mappings_mtof, build_mappings_ftom]
  decide

/-- Round-trip check for rows 21-30 of the table. -/
theorem c2rows3_ok : (c2rows3.all fun p => c2check p) = true := by
  simp only [c2check, isLadyPair, pairRoundTrips, transform_text,
    build_mappings_mtof, build_mappings_ftom]
  decide

/-- Round-trip check for rows 31-40 of the table. -/
theorem c2rows4_ok : (c2rows4.all fun p => c2check p) = true := by
  simp only [c2check, isLadyPair, pairRoundTrips, transform_text,
    build_mappings_mtof, build_mappings_ftom]
  decide

/-- Round-trip check for rows 41-50 of the table. -/
theorem c2rows5_ok : (c2rows5.all fun p => c2check p) = true := by
  simp only [c2check, isLadyPair, pairRoundTrips, transform_text,
    build_mappings_mtof, build_mappings_ftom]
  decide

/-- Round-trip check for rows 51-60 of the table. -/
theorem c2rows6_ok : (c2rows6.all fun p => c2check p) = true := by
  simp only [c2check, isLadyPair, pairRoundTrips, transform_text,
    build_mappings_mtof, build_mappings_ftom]
  decide

/-- Round-trip check for rows 61-70 of the table. -/
theorem c2rows7_ok : (c2rows7.all fun p => c2check p) = true := by
  simp only [c2check, isLadyPair, pairRoundTrips, transform_text,
    build_mappings_mtof, build_mappings_ftom]
  decide

/-- Round-trip check for rows 71-80 of the table. -/
theorem c2rows8_ok : (c2rows8.all fun p => c2check p) = true := by
  simp only [c2check, isLadyPair, pairRoundTrips, transform_text,
    build_mappings_mtof, build_mappings_ftom]
  decide

/-- Round-trip check for rows 81-87 of the table. -/
theorem c2rows9_ok : (c2rows9.all fun p => c2check p) = true := by
  simp only [c2check, isLadyPair, pairRoundTrips, transform_text,
    build_mappings_mtof, build_mappings_ftom]
  decide

/-- The table is the concatenation of its nine row groups. -/
theorem gender_pairs_split :
    GENDER_PAIRS = c2rows1 ++ c2rows2 ++ c2rows3 ++ c2rows4 ++ c2rows5 ++ c2rows6 ++ c2rows7 ++ c2rows8 ++ c2rows9 := by rfl


/-- Claim C2, counterexample: the pair ("gentleman", "lady") is in the
table, but `transform("lady", F→M)` is "lord", not "gentleman" — the
feminine key "lady" also belongs to the later pair ("lord", "lady"), and
the reverse dict keeps the last value. -/
theorem c2_wordpair_counterexample :
    (lc "gentleman", lc "lady") ∈ GENDER_PAIRS ∧
    transform_text (lc "lady") "f_to_m" = lc "lord" ∧
    lc "lord" ≠ lc "gentleman" := by
  refine ⟨by decide, ?_, by decide⟩
  simp only [transform_text, build_mappings_ftom]
  decide

/-- Claim C2 (amended): for every WordPair (m, f) of the table except
("gentleman", "lady") and ("gentlemen", "ladies"),
`transform(m, M→F) = f` and `transform(f, F→M) = m` when the word appears
as a standalone token, in lower-case, Capitalized and UPPER-CASE form.
For the two excepted pairs the feminine form is shared with
("lord", "lady") / ("lords", "ladies") and maps back to "lord"/"lords". -/
theorem c2_wordpair_roundtrip_amended :
    (GENDER_PAIRS.all fun p => c2check p) = true ∧
    transform_text (lc "lady") "f_to_m" = lc "lord" ∧
    transform_text (lc "ladies") "f_to_m" = lc "lords" := by
  refine ⟨?_, ?_, ?_⟩
  · rw [gender_pairs_split]
    simp only [List.all_append, c2rows1_ok, c2rows2_ok, c2rows3_ok, c2rows4_ok,
      c2rows5_ok, c2rows6_ok, c2rows7_ok, c2rows8_ok, c2rows9_ok, Bool.and_self]
  · simp only [transform_text, build_mappings_ftom]
    decide
  · simp only [transform_text, build_mappings_ftom]
    decide

/-- Claim C1, counterexample: the example given in the spec, `transform("it is hers",
F→M) == "his"` is false — the function rewrites only the matched word and
returns the whole text, so the result is "it is his", not "his". -/
theorem c1_reverse_possessive_counterexample :
    transform_text (lc "it is hers") "f_to_m" = lc "it is his" ∧
    lc "it is his" ≠ lc "his" := by
  refine ⟨?_, by decide⟩
  simp only [transform_text, build_mappings_ftom]
  decide

/-- Claim C1 (amended): for FeminineToMasculine, every whole-word
case-insensitive "hers" becomes "his" unconditionally; "her" followed by
whitespace and another word becomes "his"; a standalone "her" becomes
"him".  In particular `transform("her book", F→M) = "his book"` and
`transform("it is hers", F→M) = "it is his"` (the whole text is returned,
not just the replaced word). -/
theorem c1_reverse_possessive_amended :
    transform_text (lc "her book") "f_to_m" = lc "his book" ∧
    transform_text (lc "it is hers") "f_to_m" = lc "it is his" ∧
    transform_text (lc "hers") "f_to_m" = lc "his" ∧
    transform_text (lc "her") "f_to_m" = lc "him" ∧
    transform_text (lc "I saw her.") "f_to_m" = lc "I saw him." ∧
    transform_text (lc "Hers and HERS") "f_to_m" = lc "His and HIS" ∧
    transform_text (lc "her cat and her dog") "f_to_m" = lc "his cat and his dog" := by
  simp only [transform_text, build_mappings_ftom]
  decide

/-- Claim C6: for MasculineToFeminine, whole-word case-insensitive "his"
followed by whitespace and another word becomes "her"; a trailing or
standalone "his" becomes "hers"; `transform("his book", M→F) = "her book"`
and `transform("it is his", M→F) = "it is hers"`. -/
theorem c6_ms_possessive :
    transform_text (lc "his book") "m_to_f" = lc "her book" ∧
    transform_text (lc "it is his") "m_to_f" = lc "it is hers" ∧
    transform_text (lc "his") "m_to_f" = lc "hers" ∧
    transform_text (lc "his.") "m_to_f" = lc "hers." ∧
    transform_text (lc "HIS HAT") "m_to_f" = lc "HER HAT" ∧
    transform_text (lc "His car and his dog bit his.") "m_to_f"
      = lc "Her car and her dog bit hers." := by
  simp only [transform_text, build_mappings_mtof]
  decide

/-- Claim C7: the casing of the emitted target is determined solely by the
matched token — all-upper-case tokens give an upper-case target, a
capitalized first letter gives a Capitalized target, anything else gives a
lower-case target; each match is treated independently. -/
theorem c7_case_preservation :
    transform_text (lc "HE") "m_to_f" = lc "SHE" ∧
    transform_text (lc "He") "m_to_f" = lc "She" ∧
    transform_text (lc "he") "m_to_f" = lc "she" ∧
    transform_text (lc "FATHER") "m_to_f" = lc "MOTHER" ∧
    transform_text (lc "Father") "m_to_f" = lc "Mother" ∧
    transform_text (lc "hIs hat") "m_to_f" = lc "her hat" ∧
    transform_text (lc "he and HE and He") "m_to_f" = lc "she and SHE and She" := by
  simp only [transform_text, build_mappings_mtof]
  decide

/-- Claim C8: substitution happens only at whole-word token boundaries —
an occurrence bordered by an alphanumeric character is left alone
("cheese", "hexagon", "ahem", "hers" under M→F are unchanged), while
occurrences bordered by non-alphanumeric characters are replaced. -/
theorem c8_whole_word_boundary :
    transform_text (lc "cheese") "m_to_f" = lc "cheese" ∧
    transform_text (lc "hexagon") "m_to_f" = lc "hexagon" ∧
    transform_text (lc "ahem") "m_to_f" = lc "ahem" ∧
    transform_text (lc "hers") "m_to_f" = lc "hers" ∧
    transform_text (lc "(he)") "m_to_f" = lc "(she)" ∧
    transform_text (lc "he!") "m_to_f" = lc "she!" ∧
    transform_text (lc "the man") "m_to_f" = lc "the woman" := by
  simp only [transform_text, build_mappings_mtof]
  decide

/-- Does `needle` occur at the start of `hay`? -/
def startsWith : LC → LC → Bool
  | [], _ => true
  | _ :: _, [] => false
  | a :: as, b :: bs => a == b && startsWith as bs

/-- The Python substring test (needle occurring inside hay). -/
def strContains (hay needle : LC) : Bool :=
  match hay with
  | [] => needle.isEmpty
  | _ :: t => startsWith needle hay || strContains t needle

/-- `find_matching_font` from src/app.py lines 170-179: the
`font_fallbacks` dict is scanned in insertion order and the first key
that occurs (case-insensitively) as a substring of the font name decides
the substitute; the default is "helv". -/
def find_matching_font (original_font : LC) : LC :=
  if strContains (lcLower original_font) (lc "arial") then lc "helv"
  else if strContains (lcLower original_font) (lc "helvetica") then lc "helv"
  else if strContains (lcLower original_font) (lc "times") then lc "tiro"
  else if strContains (lcLower original_font) (lc "times new roman") then lc "tiro"
  else if strContains (lcLower original_font) (lc "courier") then lc "cour"
  else if strContains (lcLower original_font) (lc "couriernew") then lc "cour"
  else lc "helv"

/-- `build_word_list` from src/app.py lines 182-201: all dict entries
except the possessives, followed by the direction-specific possessive
pairs appended at the end. -/
def build_word_list (direction : String) : List (LC × LC) :=
  ((build_mappings direction).filter fun st =>
      !(st.1 == lc "his" || st.1 == lc "hers" || st.1 == lc "her")) ++
  (if direction == "m_to_f" then [(lc "his", lc "her")]
   else [(lc "hers", lc "his"), (lc "her", lc "his")])

/-- A rectangle on the page (`fitz.Rect`), in page coordinates. -/
structure Rect where
  x0 : ℚ
  y0 : ℚ
  x1 : ℚ
  y1 : ℚ
deriving DecidableEq

/-- The font information record produced by `get_font_info_at_point`
(src/app.py lines 150-167): font name, size, packed-RGB colour (`none`
models a non-integer colour value, which the code treats as black), and
the glyph baseline origin. -/
structure FontInfo where
  font : LC
  size : ℚ
  color : Option ℕ
  origin : Option (ℚ × ℚ)
deriving DecidableEq

/-- One found replacement record as assembled in src/app.py lines 252-257:
the matched rectangle, the matched source variant, the replacement text and
the font information at the match. -/
structure Replacement where
  rect : Rect
  original : LC
  replacement : LC
  font_info : FontInfo
deriving DecidableEq

/-- Exact rational arithmetic helpers, written via `mkRat` so that
concrete traces evaluate (the rational operations of the library are opaque
to evaluation). -/
def ratMul (a b : ℚ) : ℚ := mkRat (a.num * b.num) (a.den * b.den)

def ratAdd (a b : ℚ) : ℚ := mkRat (a.num * b.den + b.num * a.den) (a.den * b.den)

def ratSub (a b : ℚ) : ℚ := mkRat (a.num * b.den - b.num * a.den) (a.den * b.den)

def ratDiv (a b : ℚ) : ℚ := mkRat (a.num * b.den * b.num.sign) (a.den * b.num.natAbs)

/-- Round to the nearest integer, ties to even (Python `round`).  Written
with the executable `Rat` primitives so that concrete traces evaluate. -/
def roundHalfEven (q : ℚ) : ℤ :=
  let f := Rat.floor q
  let r := ratSub q (Rat.ofInt f)
  if Rat.blt r (mkRat 1 2) then f
  else if Rat.blt (mkRat 1 2) r then f + 1
  else if f % 2 == 0 then f else f + 1

/-- Python `round(x, 1)` on the rational model. -/
def pyRound1 (q : ℚ) : ℚ := mkRat (roundHalfEven (ratMul q 10)) 10

/-- The deduplication key of a replacement: its rectangle coordinates
rounded to one decimal (src/app.py lines 262-264). -/
def rectKey (r : Rect) : ℚ × ℚ × ℚ × ℚ :=
  (pyRound1 r.x0, pyRound1 r.y0, pyRound1 r.x1, pyRound1 r.y1)

/-- The duplicate-removal loop of src/app.py lines 259-267: keep the first
replacement for each rounded rectangle, preserving order. -/
def dedupAux : List Replacement → List (ℚ × ℚ × ℚ × ℚ) → List Replacement
  | [], _ => []
  | r :: rs, seen =>
    if rectKey r.rect ∈ seen then dedupAux rs seen
    else r :: dedupAux rs (rectKey r.rect :: seen)

/-- The `unique_replacements` list of src/app.py line 261. -/
def unique_replacements (rs : List Replacement) : List Replacement :=
  dedupAux rs []

/-- The padded redaction rectangle of src/app.py lines 274-283:
vertical padding `font_size * 0.3`, horizontal padding `2.0`. -/
def redact_rect (r : Replacement) : Rect :=
  let font_size := r.font_info.size
  let v_padding := ratMul font_size (mkRat 3 10)
  let h_padding : ℚ := 2
  ⟨ratSub r.rect.x0 h_padding, ratSub r.rect.y0 v_padding,
   ratAdd r.rect.x1 h_padding, ratAdd r.rect.y1 v_padding⟩

/-- RGB channel extraction of src/app.py lines 296-302: a packed integer
is split into channels scaled to [0,1]; a non-integer colour becomes
black. -/
def unpackColor : Option ℕ → ℚ × ℚ × ℚ
  | some c =>
    (mkRat (c / 65536 % 256 : ℕ) 255,
     mkRat (c / 256 % 256 : ℕ) 255,
     mkRat (c % 256 : ℕ) 255)
  | none => (0, 0, 0)

/-- The insertion point of src/app.py lines 304-312: the left edge of the
rectangle at the recorded baseline, or at 80% of the rectangle height when no
origin was recorded. -/
def insertion_point (r : Replacement) : ℚ × ℚ :=
  match r.font_info.origin with
  | some o => (r.rect.x0, o.2)
  | none =>
    (r.rect.x0, ratAdd r.rect.y0 (ratMul (ratSub r.rect.y1 r.rect.y0) (mkRat 4 5)))

/-- One document-engine call issued by the per-page loop of
`transform_pdf`: registering a redaction (`page.add_redact_annot`),
applying the registered redactions in one batch
(`page.apply_redactions`), or drawing text (`page.insert_text`).
`page.insert_text` is always invoked without any morph/scale argument, so
the drawn text keeps its natural width; the `hscale` field records that
effective horizontal scale (always 1 as issued by the code). -/
inductive PageOp where
  | addRedact (rect : Rect)
  | applyRedactions
  | insertText (point : ℚ × ℚ) (text : LC) (fontname : LC) (fontsize : ℚ)
      (color : ℚ × ℚ × ℚ) (hscale : ℚ)
deriving DecidableEq

/-- The draw call issued for one replacement (src/app.py lines 314-322):
original position, replacement text, substitute font, original size and
colour — and no scale argument (hscale 1). -/
def insert_op (r : Replacement) : PageOp :=
  PageOp.insertText (insertion_point r) r.replacement
    (find_matching_font r.font_info.font) r.font_info.size
    (unpackColor r.font_info.color) 1

/-- The per-page engine-call trace and modification count of
`transform_pdf` (src/app.py lines 259-334): deduplicate, add one
redaction per unique replacement, apply all redactions in one batch
(unconditionally — there is no emptiness test), then draw every
replacement. -/
def processPage (rs : List Replacement) : List PageOp × ℕ :=
  (((unique_replacements rs).map fun r => PageOp.addRedact (redact_rect r)) ++
     (PageOp.applyRedactions :: (unique_replacements rs).map insert_op),
   (unique_replacements rs).length)

def opIsInsert : PageOp → Bool
  | PageOp.insertText _ _ _ _ _ _ => true
  | _ => false

def opIsRedactMark : PageOp → Bool
  | PageOp.addRedact _ => true
  | _ => false

/-- An erase-pipeline operation: registering a redaction or applying the
batched redactions. -/
def opIsErase : PageOp → Bool
  | PageOp.addRedact _ => true
  | PageOp.applyRedactions => true
  | PageOp.insertText _ _ _ _ _ _ => false

/-- The horizontal scale at which an operation draws (1 for non-draw
operations). -/
def opHScale : PageOp → ℚ
  | PageOp.insertText _ _ _ _ _ h => h
  | _ => 1

def opScaleOk : PageOp → Bool
  | PageOp.insertText _ _ _ _ _ h => h == 1
  | _ => true

/-- Modelled from the spec: the horizontal scale factor the specification
mandates for a drawn Modification — original bounding-box width divided by
the measured width of the replacement text (1 when the measured width is
not positive), clamped into the band [0.6, 1.5].  No width measurement and
no scale computation exist anywhere in src/app.py; this definition follows
the wording of the spec so the mandated value can be compared with the drawn
one. -/
def spec_scale (bbox_width measured_width : ℚ) : ℚ :=
  let raw := if Rat.blt 0 measured_width then ratDiv bbox_width measured_width else 1
  if Rat.blt raw (mkRat 3 5) then mkRat 3 5
  else if Rat.blt (mkRat 3 2) raw then mkRat 3 2
  else raw

/-- A concrete font-information record for witnesses: 10pt black
Helvetica with baseline at y = 8. -/
def sample_font_info : FontInfo := ⟨lc "Helvetica", 10, some 0, some (0, 8)⟩

/-- A concrete replacement for witnesses: "he" → "she" in a 14-wide,
10-high rectangle at the origin. -/
def sample_replacement : Replacement :=
  ⟨⟨0, 0, 14, 10⟩, lc "he", lc "she", sample_font_info⟩

/-- Claim C3, counterexample: for a page with zero matching words the
code still issues the batched `apply_redactions` engine call — the trace
is not empty, so the erase/redraw pipeline does not short-circuit before
every erase call. -/
theorem c3_empty_page_counterexample :
    (processPage ([] : List Replacement)).1 = [PageOp.applyRedactions] ∧
    ([PageOp.applyRedactions] : List PageOp) ≠ ([] : List PageOp) := by decide

/-- Claim C3 (amended): a page with zero matching words yields zero
Modifications — no redaction is registered, no text is drawn, and the
modification count is 0 — but the pipeline does not short-circuit: the
unconditional batched `apply_redactions` call is still issued for the
page (a no-op when no redactions are registered). -/
theorem c3_empty_page_amended :
    processPage ([] : List Replacement) = ([PageOp.applyRedactions], 0) ∧
    ((processPage ([] : List Replacement)).1.all fun op =>
      !(opIsRedactMark op) && !(opIsInsert op)) = true := by decide

/-- Claim C4, counterexample: the spec mandates drawing at scale
`clamp(bbox_width / measured_width)`; with the sample bounding-box
width 14 and a measured width of 7 this is the clamp
boundary 3/2, but the draw call issued by the code carries horizontal
scale 1 (no morph/scale argument is ever passed). -/
theorem c4_scale_counterexample :
    opHScale (insert_op sample_replacement) = 1 ∧
    spec_scale (ratSub sample_replacement.rect.x1 sample_replacement.rect.x0) 7 = mkRat 3 2 ∧
    (1 : ℚ) ≠ mkRat 3 2 := by decide

theorem all_scale_ok_redacts (l : List Replacement) :
    ((l.map fun r => PageOp.addRedact (redact_rect r)).all fun op => opScaleOk op) = true := by
  induction l with
  | nil => rfl
  | cons r t ih =>
    simp only [List.map_cons, List.all_cons, ih, Bool.and_true]
    rfl

theorem all_scale_ok_inserts (l : List Replacement) :
    ((l.map insert_op).all fun op => opScaleOk op) = true := by
  induction l with
  | nil => rfl
  | cons r t ih =>
    simp only [List.map_cons, List.all_cons, ih, Bool.and_true]
    rfl

/-- Claim C4 (amended): every operation of every page trace draws at
horizontal scale 1 — replacement text is drawn at the original font size
with natural width; no width measurement and no clamping into [0.6, 1.5]
is performed. -/
theorem c4_no_scale_amended (rs : List Replacement) :
    ((processPage rs).1.all fun op => opScaleOk op) = true := by
  have h1 := all_scale_ok_redacts (unique_replacements rs)
  have h2 := all_scale_ok_inserts (unique_replacements rs)
  simp only [processPage, List.all_append, List.all_cons, h1, h2, Bool.true_and,
    Bool.and_true]
  rfl

/-- Claim C5: within a page, every erase-pipeline operation (each
redaction registration and the batched application) comes strictly before
every draw operation in the engine-call trace. -/
theorem c5_erase_before_draw (rs : List Replacement) (i j : ℕ) (oi oj : PageOp)
    (hi : (processPage rs).1.get? i = some oi)
    (hj : (processPage rs).1.get? j = some oj)
    (hoi : opIsInsert oi = true) (hoj : opIsErase oj = true) : j < i := by
  simp only [processPage] at hi hj
  set A := (unique_replacements rs).map fun r => PageOp.addRedact (redact_rect r) with hA
  set B := (unique_replacements rs).map insert_op with hB
  have hiA : A.length < i := by
    by_contra hle
    push_neg at hle
    rcases lt_or_eq_of_le hle with h | h
    · rw [List.get?_append h] at hi
      rcases List.mem_map.mp (List.get?_mem hi) with ⟨r, _, hr⟩
      rw [← hr] at hoi
      simp [opIsInsert] at hoi
    · rw [List.get?_append_right (le_of_eq h.symm)] at hi
      rw [← h, Nat.sub_self] at hi
      simp only [List.get?_cons_zero, Option.some.injEq] at hi
      rw [← hi] at hoi
      simp [opIsInsert] at hoi
  have hjA : j ≤ A.length := by
    by_contra hgt
    push_neg at hgt
    rw [List.get?_append_right (le_of_lt hgt)] at hj
    obtain ⟨m, hm⟩ : ∃ m, j - A.length = m + 1 := ⟨j - A.length - 1, by omega⟩
    rw [hm, List.get?_cons_succ] at hj
    rcases List.mem_map.mp (List.get?_mem hj) with ⟨r, _, hr⟩
    rw [← hr] at hoj
    simp [opIsErase, insert_op] at hoj
  omega

/-- Witness for C5 at a concrete one-replacement page: the draw operation
sits at index 2, after the redaction registration (index 0) and the
batched application (index 1). -/
theorem c5_erase_before_draw_witness : (0 : ℕ) < 2 :=
  c5_erase_before_draw [sample_replacement] 2 0 (insert_op sample_replacement)
    (PageOp.addRedact (redact_rect sample_replacement))
    (by rfl) (by rfl) (by rfl) (by rfl)

/-- Claim C9, counterexample: the claimed policy chooses among
regular/bold/italic substitute variants according to style markers, but
the resolver ignores them — the bold, italic and regular spellings of a
family all resolve to the same regular identifier. -/
theorem c9_font_resolver_counterexample :
    find_matching_font (lc "Times-Bold") = lc "tiro" ∧
    find_matching_font (lc "Times-Italic") = lc "tiro" ∧
    find_matching_font (lc "Times-Roman") = lc "tiro" ∧
    find_matching_font (lc "Helvetica-Bold") = lc "helv" ∧
    find_matching_font (lc "Helvetica") = lc "helv" := by decide

/-- Claim C9 (amended): the resolver is pure and total and always returns
one of exactly three regular substitute identifiers — "helv" (sans),
"tiro" (serif), "cour" (monospace) — chosen by case-insensitive family
substring matching with "helv" as the default; bold/italic style markers
play no role. -/
theorem c9_font_resolver_amended :
    (∀ s : LC, find_matching_font s = lc "helv" ∨ find_matching_font s = lc "tiro" ∨
      find_matching_font s = lc "cour") ∧
    find_matching_font (lc "Arial") = lc "helv" ∧
    find_matching_font (lc "Times New Roman") = lc "tiro" ∧
    find_matching_font (lc "CourierNew") = lc "cour" ∧
    find_matching_font (lc "Comic Sans MS") = lc "helv" := by
  refine ⟨?_, by decide, by decide, by decide, by decide⟩
  intro s
  unfold find_matching_font
  split_ifs <;> simp

/-- Claim C10: the document pipeline searches fixed (source, target) word
pairs: for MasculineToFeminine the list pairs "his" with "her" (never
"hers"), for FeminineToMasculine it pairs "her" with "his" (never "him"),
so possessive substitution on a page is context-free — unlike
`transform_text`, which maps a trailing "his" to "hers". -/
theorem c10_pdf_context_free :
    (lc "his", lc "her") ∈ build_word_list "m_to_f" ∧
    ((build_word_list "m_to_f").all fun p => !(p.1 == lc "his") || (p.2 == lc "her")) = true ∧
    (lc "her", lc "his") ∈ build_word_list "f_to_m" ∧
    ((build_word_list "f_to_m").all fun p => !(p.1 == lc "her") || (p.2 == lc "his")) = true ∧
    transform_text (lc "he took his hat") "m_to_f" = lc "she took her hat" ∧
    transform_text (lc "the hat is his") "m_to_f" = lc "the hat is hers" := by
  refine ⟨?_, ?_, ?_, ?_, ?_, ?_⟩
  · simp only [build_word_list, build_mappings_mtof]
    decide
  · simp only [build_word_list, build_mappings_mtof]
    decide
  · simp only [build_word_list, build_mappings_ftom]
    decide
  · simp only [build_word_list, build_mappings_ftom]
    decide
  · simp only [transform_text, build_mappings_mtof]
    decide
  · simp only [transform_text, build_mappings_mtof]
    decide
